import Mathlib

/-!
Shallow embedding of `cmd/server/main.go` of the rest-greeting service.

The embedding models:
* the underlying `net/http` response writer state (headers, committed
  status, body) and its first-write-wins header commit semantics;
* `statusRecorder` (the status-capturing wrapper) with its overridden
  `WriteHeader`;
* `helloHandler` as the list of writer operations it performs on a request;
* `instrumentHandler`, which wraps a handler, runs it against a
  `statusRecorder`, and emits one counter increment and one histogram
  observation with labels (method, path, status);
* the metrics state as per-label counter values and histogram
  observation counts, updated by a trace of metric events, so that
  arbitrary interleavings of concurrently completing requests are
  permutations of the per-request event traces.

Wall-clock durations (`time.Since(start).Seconds()`) are modelled as a
rational-number parameter `elapsed` supplied to the middleware.
-/

/-- Hexadecimal digit characters as used by Go `encoding/json` ("0123456789abcdef"). -/
def hexDigit (n : Nat) : Char :=
  if n < 10 then Char.ofNat (48 + n) else Char.ofNat (87 + n)

/-- Escaping of one character of a JSON string, following Go
`encoding/json` with its default HTML escaping: `"`, `\`, newline,
carriage return and tab get two-character escapes; other control
characters and `<`, `>`, `&` become `\u00XX`; U+2028 and U+2029 become
` `/` `; every other character is emitted unchanged. -/
def jsonEscapeChar (c : Char) : String :=
  if c = '"' then "\\\""
  else if c = '\\' then "\\\\"
  else if c = '\n' then "\\n"
  else if c = '\r' then "\\r"
  else if c = '\t' then "\\t"
  else if c.toNat < 0x20 ∨ c = '<' ∨ c = '>' ∨ c = '&' then
    "\\u00" ++ String.mk [hexDigit (c.toNat / 16), hexDigit (c.toNat % 16)]
  else if c.toNat = 0x2028 ∨ c.toNat = 0x2029 then
    "\\u202" ++ String.mk [hexDigit (c.toNat % 16)]
  else String.mk [c]

/-- JSON string literal for `s` per Go `encoding/json`. -/
def jsonQuote (s : String) : String :=
  "\"" ++ String.join (s.data.map jsonEscapeChar) ++ "\""

/-- Mirror of the Go struct `greetingResponse` (`Message string` with json tag `message`). -/
structure greetingResponse where
  message : String
deriving DecidableEq, Repr

/-- Output of `json.NewEncoder(w).Encode(resp)` for a `greetingResponse`:
the JSON object with single field `message`, followed by the newline the
encoder appends. -/
def encodeGreetingResponse (g : greetingResponse) : String :=
  "\x7b" ++ jsonQuote "message" ++ ":" ++ jsonQuote g.message ++ "\x7d" ++ "\n"

/-- State of the underlying `net/http` response writer: wire-visible
headers, whether the header block has been committed (`WriteHeader`
already ran), the committed status code, and the bytes written to the body. -/
structure ResponseWriter where
  headers : List (String × String)
  wroteHeader : Bool
  status : Nat
  body : String
deriving DecidableEq, Repr

/-- A fresh response writer: no headers, header block not committed,
default status 200, empty body. -/
def ResponseWriter.init : ResponseWriter :=
  { headers := [], wroteHeader := false, status := 200, body := "" }

/-- Go `Header().Set(k, v)`: replaces the value of `k`. Mutations after
the header block is committed have no wire-visible effect, so they are
dropped here. -/
def rwSetHeader (w : ResponseWriter) (k v : String) : ResponseWriter :=
  if w.wroteHeader then w
  else { w with headers := (k, v) :: w.headers.filter (fun p => p.1 ≠ k) }

/-- `net/http` `WriteHeader(code)`: commits `code` the first time it is
called; later calls are superfluous and ignored. -/
def rwWriteHeader (w : ResponseWriter) (code : Nat) : ResponseWriter :=
  if w.wroteHeader then w
  else { w with wroteHeader := true, status := code }

/-- `net/http` `Write(bytes)`: an implicit `WriteHeader(200)` if the
header block is not yet committed, then the bytes are appended to the body. -/
def rwWrite (w : ResponseWriter) (s : String) : ResponseWriter :=
  let w2 := rwWriteHeader w 200
  { w2 with body := w2.body ++ s }

/-- Look up a wire-visible header value. -/
def headerGet (w : ResponseWriter) (k : String) : Option String :=
  (w.headers.find? (fun p => p.1 = k)).map Prod.snd

/-- One operation a handler can perform against the `http.ResponseWriter`
interface it is handed: set a header, set the status, or write body bytes. -/
inductive WriterOp where
  | setHeader (k v : String)
  | writeHeader (code : Nat)
  | write (s : String)
deriving DecidableEq, Repr

/-- Interpret one operation directly on the underlying writer. -/
def applyOp (w : ResponseWriter) : WriterOp → ResponseWriter
  | .setHeader k v => rwSetHeader w k v
  | .writeHeader code => rwWriteHeader w code
  | .write s => rwWrite w s

/-- Interpret a handler's operations directly on the underlying writer. -/
def applyOps (w : ResponseWriter) (ops : List WriterOp) : ResponseWriter :=
  ops.foldl applyOp w

/-- Mirror of the Go struct `statusRecorder`: embeds the underlying
`http.ResponseWriter` and holds the captured `status` field. -/
structure statusRecorder where
  rw : ResponseWriter
  status : Nat
deriving DecidableEq, Repr

/-- Interpret one operation on a `statusRecorder`. Only `WriteHeader` is
overridden by the Go type (`sr.status = code` then forward); `Header` and
`Write` are promoted from the embedded writer and do not touch the
captured status. -/
def srApplyOp (sr : statusRecorder) : WriterOp → statusRecorder
  | .setHeader k v => { sr with rw := rwSetHeader sr.rw k v }
  | .writeHeader code => { status := code, rw := rwWriteHeader sr.rw code }
  | .write s => { sr with rw := rwWrite sr.rw s }

/-- Interpret a handler's operations on a `statusRecorder`. -/
def srApplyOps (sr : statusRecorder) (ops : List WriterOp) : statusRecorder :=
  ops.foldl srApplyOp sr

/-- An inbound request: its method and the value of the `name` query
parameter when present (`r.URL.Query().Get("name")` returns the empty
string when it is absent). -/
structure Request where
  method : String
  nameQuery : Option String
deriving DecidableEq, Repr

/-- Go `url.Values.Get`: the parameter's value, or the empty string when absent. -/
def queryGet (q : Option String) : String :=
  q.getD ""

/-- Operations performed by Go `http.Error(w, msg, code)`: set
`Content-Type: text/plain; charset=utf-8` and `X-Content-Type-Options:
nosniff`, write the status code, then print `msg` with a trailing newline. -/
def httpError (msg : String) (code : Nat) : List WriterOp :=
  [WriterOp.setHeader "Content-Type" "text/plain; charset=utf-8",
   WriterOp.setHeader "X-Content-Type-Options" "nosniff",
   WriterOp.writeHeader code,
   WriterOp.write (msg ++ "\n")]

/-- The operations `helloHandler` performs on a request, translated from
the source. `encodeErr` models the error return of
`json.NewEncoder(w).Encode(resp)`: for `greetingResponse` marshalling
itself cannot fail, so a non-nil error can only arise from the underlying
write failing; when it does, the handler calls
`http.Error(w, "failed to encode response", 500)`. -/
def helloHandler (r : Request) (encodeErr : Bool) : List WriterOp :=
  if r.method ≠ "GET" then
    httpError "method not allowed" 405
  else
    let name0 := queryGet r.nameQuery
    let name := if name0 = "" then "World" else name0
    let resp : greetingResponse := { message := "Hello " ++ name }
    [WriterOp.setHeader "Content-Type" "application/json",
     WriterOp.write (encodeGreetingResponse resp)] ++
      (if encodeErr then httpError "failed to encode response" 500 else [])

/-- A Prometheus label set: the (method, path, status) triple. -/
structure Labels where
  method : String
  path : String
  status : String
deriving DecidableEq, Repr

/-- One update of the metrics recorder: `counter.With(labels).Inc()` or
`duration.With(labels).Observe(elapsed)`. Each is atomic in the
Prometheus client, so concurrent executions interleave at the granularity
of whole events. -/
inductive MetricEvent where
  | inc (l : Labels)
  | obs (l : Labels) (elapsed : ℚ)
deriving DecidableEq, Repr

/-- Aggregated metrics state: per label set, the value of the
`http_requests_total` counter series and the observation count and
running sum of the `http_request_duration_seconds` histogram series. -/
structure MetricsState where
  counter : Labels → Nat
  histCount : Labels → Nat
  histSum : Labels → ℚ

/-- Fresh registry: every series at zero (series are created lazily on
first use; an untouched series reads as zero). -/
def MetricsState.init : MetricsState :=
  { counter := fun _ => 0, histCount := fun _ => 0, histSum := fun _ => 0 }

/-- Apply one metric event to the aggregated state. -/
def applyEvent (m : MetricsState) : MetricEvent → MetricsState
  | .inc l =>
      { m with counter := fun l2 => if l2 = l then m.counter l2 + 1 else m.counter l2 }
  | .obs l d =>
      { m with
        histCount := fun l2 => if l2 = l then m.histCount l2 + 1 else m.histCount l2,
        histSum := fun l2 => if l2 = l then m.histSum l2 + d else m.histSum l2 }

/-- Apply a trace of metric events in order. -/
def applyEvents (m : MetricsState) (es : List MetricEvent) : MetricsState :=
  es.foldl applyEvent m

/-- Result of one instrumented request: the final state of the underlying
response writer (what the client sees) and the ordered trace of metric
events the middleware issued. -/
structure InstrumentedResult where
  rw : ResponseWriter
  events : List MetricEvent
deriving Repr

/-- Translation of `instrumentHandler`: build a `statusRecorder` around
the real writer pre-initialized to `http.StatusOK`, run the inner handler
against it, read the captured status, build the label set with
`strconv.Itoa(statusCode)`, then increment the counter and observe the
elapsed duration, in that order. `elapsed` is the measured
`time.Since(start).Seconds()` for this invocation. -/
def instrumentHandler (path : String) (handler : Request → List WriterOp)
    (w : ResponseWriter) (r : Request) (elapsed : ℚ) : InstrumentedResult :=
  let recorder : statusRecorder := { rw := w, status := 200 }
  let recorder2 := srApplyOps recorder (handler r)
  let statusCode := recorder2.status
  let labels : Labels := { method := r.method, path := path, status := toString statusCode }
  { rw := recorder2.rw,
    events := [MetricEvent.inc labels, MetricEvent.obs labels elapsed] }

/-- The instrumented `/hello` route as registered on the mux:
`instrumentHandler("/hello", counter, duration, helloHandler)` applied to
a request arriving on a fresh writer. -/
def serveHello (r : Request) (encodeErr : Bool) (elapsed : ℚ) : InstrumentedResult :=
  instrumentHandler "/hello" (fun rq => helloHandler rq encodeErr) ResponseWriter.init r elapsed

/-- Metric-event trace of one `GET /hello` request with the given `name`
query value and elapsed time, with JSON encoding succeeding. -/
def helloEvents (q : Option String) (elapsed : ℚ) : List MetricEvent :=
  (serveHello { method := "GET", nameQuery := q } false elapsed).events

/-- The status code carried by a `writeHeader` operation, if any. -/
def writeHeaderCode : WriterOp → Option Nat
  | .writeHeader code => some code
  | _ => none

/-- The code of the last `writeHeader` operation in `ops`, or `d` when none occurs. -/
def lastWriteHeaderCode (ops : List WriterOp) (d : Nat) : Nat :=
  (ops.filterMap writeHeaderCode).getLastD d

/-- Number of counter increments with label set `l` in a trace. -/
def countInc (l : Labels) (es : List MetricEvent) : Nat :=
  es.countP (fun e => match e with | .inc l2 => decide (l2 = l) | _ => false)

/-- Number of histogram observations with label set `l` in a trace. -/
def countObs (l : Labels) (es : List MetricEvent) : Nat :=
  es.countP (fun e => match e with | .obs l2 _ => decide (l2 = l) | _ => false)

/-- Label set of a successful `GET /hello` request. -/
def helloOKLabels : Labels :=
  { method := "GET", path := "/hello", status := "200" }

/-- A run of one instrumented request: its configured path label, inner
handler, request, and measured elapsed seconds, executed on a fresh writer. -/
structure RequestRun where
  path : String
  handler : Request → List WriterOp
  req : Request
  elapsed : ℚ

/-- Metric-event trace of one completed instrumented request. -/
def runEvents (x : RequestRun) : List MetricEvent :=
  (instrumentHandler x.path x.handler ResponseWriter.init x.req x.elapsed).events

theorem srApplyOp_rw (sr : statusRecorder) (op : WriterOp) :
    (srApplyOp sr op).rw = applyOp sr.rw op := by
  cases op <;> rfl

/-- The wrapper forwards every operation to the underlying writer
unchanged: projecting the underlying writer out of a recorder run gives
the direct run. -/
theorem srApplyOps_rw (ops : List WriterOp) : ∀ sr : statusRecorder,
    (srApplyOps sr ops).rw = applyOps sr.rw ops := by
  induction ops with
  | nil => intro sr; rfl
  | cons op rest ih =>
      intro sr
      show (srApplyOps (srApplyOp sr op) rest).rw = applyOps (applyOp sr.rw op) rest
      rw [ih, srApplyOp_rw]

/-- The captured status after a recorder run is the code of the last
`WriteHeader` operation, or the initial value when none occurred. -/
theorem srApplyOps_status (ops : List WriterOp) : ∀ sr : statusRecorder,
    (srApplyOps sr ops).status = lastWriteHeaderCode ops sr.status := by
  induction ops with
  | nil => intro sr; rfl
  | cons op rest ih =>
      intro sr
      have step : srApplyOps sr (op :: rest) = srApplyOps (srApplyOp sr op) rest := rfl
      rw [step, ih]
      cases op with
      | setHeader k v => rfl
      | write s => rfl
      | writeHeader code =>
          have hfm : (WriterOp.writeHeader code :: rest).filterMap writeHeaderCode
              = code :: rest.filterMap writeHeaderCode := rfl
          show lastWriteHeaderCode rest code
              = lastWriteHeaderCode (WriterOp.writeHeader code :: rest) sr.status
          unfold lastWriteHeaderCode
          rw [hfm, List.getLastD_cons]

theorem applyEvents_counter (es : List MetricEvent) : ∀ (m : MetricsState) (l : Labels),
    (applyEvents m es).counter l = m.counter l + countInc l es := by
  induction es with
  | nil => intro m l; simp [applyEvents, countInc]
  | cons e rest ih =>
      intro m l
      have step : applyEvents m (e :: rest) = applyEvents (applyEvent m e) rest := rfl
      rw [step, ih]
      cases e with
      | inc l2 =>
          by_cases h : l = l2
          · subst h
            simp [applyEvent, countInc, List.countP_cons]
            omega
          · have h2 : ¬ l2 = l := fun e2 => h e2.symm
            simp [applyEvent, countInc, List.countP_cons, h, h2]
      | obs l2 d =>
          simp [applyEvent, countInc, List.countP_cons]

theorem applyEvents_histCount (es : List MetricEvent) : ∀ (m : MetricsState) (l : Labels),
    (applyEvents m es).histCount l = m.histCount l + countObs l es := by
  induction es with
  | nil => intro m l; simp [applyEvents, countObs]
  | cons e rest ih =>
      intro m l
      have step : applyEvents m (e :: rest) = applyEvents (applyEvent m e) rest := rfl
      rw [step, ih]
      cases e with
      | inc l2 =>
          simp [applyEvent, countObs, List.countP_cons]
      | obs l2 d =>
          by_cases h : l = l2
          · subst h
            simp [applyEvent, countObs, List.countP_cons]
            omega
          · have h2 : ¬ l2 = l := fun e2 => h e2.symm
            simp [applyEvent, countObs, List.countP_cons, h, h2]

/-- Operations of `helloHandler` on a `GET` request: set the JSON
content type and write the encoded greeting, then, when encoding
reported an error, the `http.Error` operations. -/
theorem helloHandler_GET (q : Option String) (e : Bool) :
    helloHandler { method := "GET", nameQuery := q } e
      = [WriterOp.setHeader "Content-Type" "application/json",
         WriterOp.write (encodeGreetingResponse
           { message := "Hello " ++ (if queryGet q = "" then "World" else queryGet q) })]
          ++ (if e then httpError "failed to encode response" 500 else []) := by
  simp [helloHandler]

/-- Every `GET /hello` request (encoding succeeding) produces exactly the
trace increment-then-observe with the 200 label set, whatever the `name`
value and elapsed time. -/
theorem helloEvents_eq (q : Option String) (t : ℚ) :
    helloEvents q t = [MetricEvent.inc helloOKLabels, MetricEvent.obs helloOKLabels t] := by
  have hstat : (srApplyOps { rw := ResponseWriter.init, status := 200 }
      (helloHandler { method := "GET", nameQuery := q } false)).status = 200 := by
    rw [srApplyOps_status, helloHandler_GET]
    rfl
  simp only [helloEvents, serveHello, instrumentHandler]
  rw [hstat]
  rfl

theorem countInc_helloEvents (q : Option String) (t : ℚ) :
    countInc helloOKLabels (helloEvents q t) = 1 := by
  rw [helloEvents_eq]
  rfl

theorem runEvents_shape (x : RequestRun) :
    ∃ l : Labels, runEvents x = [MetricEvent.inc l, MetricEvent.obs l x.elapsed] :=
  ⟨_, rfl⟩

theorem countInc_runEvents (l : Labels) (x : RequestRun) :
    countInc l (runEvents x) = countObs l (runEvents x) := by
  obtain ⟨l2, h⟩ := runEvents_shape x
  rw [h]
  simp [countInc, countObs, List.countP_cons]

theorem sum_map_one {α : Type} (xs : List α) (f : α → Nat) (h : ∀ x ∈ xs, f x = 1) :
    (xs.map f).sum = xs.length := by
  induction xs with
  | nil => rfl
  | cons a rest ih =>
      simp only [List.map_cons, List.sum_cons, List.length_cons,
        h a (List.mem_cons_self a rest)]
      rw [ih (fun x hx => h x (List.mem_cons_of_mem a hx))]
      omega

/-- C1: for every completed invocation of the inner handler, the
instrumentation middleware emits exactly the two-event trace counter
increment then histogram observation, both after the inner handler's run,
with one shared label set carrying the request method, the configured
path, and the captured status, and the observation carrying the elapsed
duration — for every handler, request, writer, and elapsed time. -/
theorem claim_C1_single_increment_then_observation (path : String)
    (handler : Request → List WriterOp) (w : ResponseWriter) (r : Request) (elapsed : ℚ) :
    ∃ l : Labels,
      (instrumentHandler path handler w r elapsed).events
          = [MetricEvent.inc l, MetricEvent.obs l elapsed] ∧
      l.method = r.method ∧ l.path = path ∧
      l.status = toString (srApplyOps { rw := w, status := 200 } (handler r)).status :=
  ⟨_, rfl, rfl, rfl, rfl⟩

/-- C2: a handler that writes a response body without ever calling
`WriteHeader` is recorded by the middleware with status label "200",
since the captured status is pre-initialized to 200 and `WriteHeader` is
its only mutation path. -/
theorem claim_C2_implicit_default_recorded_as_200 (path : String)
    (handler : Request → List WriterOp) (w : ResponseWriter) (r : Request) (elapsed : ℚ)
    (_hwrite : ∃ s, WriterOp.write s ∈ handler r)
    (hnowh : ∀ c, WriterOp.writeHeader c ∉ handler r) :
    ∃ l : Labels,
      (instrumentHandler path handler w r elapsed).events
          = [MetricEvent.inc l, MetricEvent.obs l elapsed] ∧
      l.status = "200" := by
  refine ⟨_, rfl, ?_⟩
  show toString (srApplyOps { rw := w, status := 200 } (handler r)).status = "200"
  rw [srApplyOps_status]
  have hfm : (handler r).filterMap writeHeaderCode = [] := by
    rw [List.filterMap_eq_nil_iff]
    intro op hop
    cases op with
    | setHeader k v => rfl
    | write s => rfl
    | writeHeader c => exact absurd hop (hnowh c)
  unfold lastWriteHeaderCode
  rw [hfm]
  have h200 : ([] : List Nat).getLastD ({ rw := w, status := 200 } : statusRecorder).status
      = 200 := rfl
  rw [h200]
  rfl

/-- Witness for C2 at a concrete handler that only writes a body. -/
theorem claim_C2_witness :
    ∃ l : Labels,
      (instrumentHandler "/hello" (fun _ => [WriterOp.write "hi"]) ResponseWriter.init
          { method := "GET", nameQuery := none } 1).events
          = [MetricEvent.inc l, MetricEvent.obs l 1] ∧
      l.status = "200" :=
  claim_C2_implicit_default_recorded_as_200 "/hello" (fun _ => [WriterOp.write "hi"])
    ResponseWriter.init { method := "GET", nameQuery := none } 1
    ⟨"hi", by simp⟩ (fun c => by simp)

/-- C3 counterexample: with a handler that calls `WriteHeader(404)` and
then `WriteHeader(500)`, the middleware records status "500", not the
first explicitly set code "404" — the captured-status field is
overwritten by every call, so the claim's first-write-wins reading is
false on the code. -/
theorem claim_C3_counterexample :
    ∃ l : Labels,
      (instrumentHandler "/hello"
          (fun _ => [WriterOp.writeHeader 404, WriterOp.writeHeader 500])
          ResponseWriter.init { method := "GET", nameQuery := none } 0).events
          = [MetricEvent.inc l, MetricEvent.obs l 0] ∧
      l.status = "500" ∧ l.status ≠ "404" :=
  ⟨_, rfl, by decide, by decide⟩

/-- C3 amended: the captured status is overwritten by every `WriteHeader`
call, so the status the middleware reads and records after the inner
handler returns is the code of the last `WriteHeader` call, or 200 when
the handler never calls it. -/
theorem claim_C3_last_set_status_recorded (path : String)
    (handler : Request → List WriterOp) (w : ResponseWriter) (r : Request) (elapsed : ℚ) :
    ∃ l : Labels,
      (instrumentHandler path handler w r elapsed).events
          = [MetricEvent.inc l, MetricEvent.obs l elapsed] ∧
      l.status = toString (lastWriteHeaderCode (handler r) 200) :=
  ⟨_, rfl, by rw [srApplyOps_status]⟩

/-- C4: the response the client sees through the instrumented handler is
exactly the response the inner handler produces when run directly on the
unwrapped writer — the wrapper forwards header, status, and body
operations unchanged and the middleware adds no writes of its own. -/
theorem claim_C4_wrapper_is_transparent (path : String)
    (handler : Request → List WriterOp) (w : ResponseWriter) (r : Request) (elapsed : ℚ) :
    (instrumentHandler path handler w r elapsed).rw = applyOps w (handler r) := by
  show (srApplyOps { rw := w, status := 200 } (handler r)).rw = applyOps w (handler r)
  rw [srApplyOps_rw]

/-- C5 (amended): for every nonempty `name` value `s`, `GET /hello?name=s`
through the instrumented handler answers status 200 with Content-Type
`application/json` and a body that is exactly the JSON serialization of
the greeting whose `message` field is the literal concatenation
`"Hello " ++ s`. -/
theorem claim_C5_greeting_concatenation (s : String) (elapsed : ℚ) (h : s ≠ "") :
    (serveHello { method := "GET", nameQuery := some s } false elapsed).rw.status = 200 ∧
    (serveHello { method := "GET", nameQuery := some s } false elapsed).rw.wroteHeader = true ∧
    headerGet (serveHello { method := "GET", nameQuery := some s } false elapsed).rw
        "Content-Type" = some "application/json" ∧
    (serveHello { method := "GET", nameQuery := some s } false elapsed).rw.body
        = encodeGreetingResponse { message := "Hello " ++ s } := by
  have hops : helloHandler { method := "GET", nameQuery := some s } false
      = [WriterOp.setHeader "Content-Type" "application/json",
         WriterOp.write (encodeGreetingResponse { message := "Hello " ++ s })] := by
    rw [helloHandler_GET]
    simp [queryGet, h]
  have hrw : (serveHello { method := "GET", nameQuery := some s } false elapsed).rw
      = applyOps ResponseWriter.init (helloHandler { method := "GET", nameQuery := some s } false) := by
    show (srApplyOps { rw := ResponseWriter.init, status := 200 } _).rw = _
    rw [srApplyOps_rw]
  rw [hrw, hops]
  refine ⟨rfl, rfl, rfl, ?_⟩
  show "" ++ encodeGreetingResponse { message := "Hello " ++ s }
      = encodeGreetingResponse { message := "Hello " ++ s }
  exact String.empty_append _

/-- Witness for C5 at the concrete name "Skaffold". -/
theorem claim_C5_witness :
    (serveHello { method := "GET", nameQuery := some "Skaffold" } false 0).rw.status = 200 ∧
    (serveHello { method := "GET", nameQuery := some "Skaffold" } false 0).rw.wroteHeader = true ∧
    headerGet (serveHello { method := "GET", nameQuery := some "Skaffold" } false 0).rw
        "Content-Type" = some "application/json" ∧
    (serveHello { method := "GET", nameQuery := some "Skaffold" } false 0).rw.body
        = encodeGreetingResponse { message := "Hello " ++ "Skaffold" } :=
  claim_C5_greeting_concatenation "Skaffold" 0 (by decide)

/-- C5 counterexample: the empty string can be supplied as the `name`
query value, but the handler substitutes "World", so the body is the
greeting for "Hello World" and not the literal concatenation
`"Hello " ++ ""` the claim demands for every supplied string. -/
theorem claim_C5_counterexample :
    (serveHello { method := "GET", nameQuery := some "" } false 0).rw.body
        = encodeGreetingResponse { message := "Hello World" } ∧
    (serveHello { method := "GET", nameQuery := some "" } false 0).rw.body
        ≠ encodeGreetingResponse { message := "Hello " ++ "" } := by
  exact ⟨by decide, by decide⟩

/-- C6: with the `name` parameter absent or supplied as the empty string,
`GET /hello` answers 200 with the JSON greeting for "Hello World". -/
theorem claim_C6_default_world (q : Option String) (elapsed : ℚ)
    (h : q = none ∨ q = some "") :
    (serveHello { method := "GET", nameQuery := q } false elapsed).rw.status = 200 ∧
    headerGet (serveHello { method := "GET", nameQuery := q } false elapsed).rw "Content-Type"
        = some "application/json" ∧
    (serveHello { method := "GET", nameQuery := q } false elapsed).rw.body
        = encodeGreetingResponse { message := "Hello World" } := by
  rcases h with h | h <;> subst h <;> exact ⟨rfl, rfl, rfl⟩

/-- Witness for C6 with the `name` parameter absent. -/
theorem claim_C6_witness :
    (serveHello { method := "GET", nameQuery := none } false 0).rw.status = 200 ∧
    headerGet (serveHello { method := "GET", nameQuery := none } false 0).rw "Content-Type"
        = some "application/json" ∧
    (serveHello { method := "GET", nameQuery := none } false 0).rw.body
        = encodeGreetingResponse { message := "Hello World" } :=
  claim_C6_default_world none 0 (Or.inl rfl)

/-- C7: a request to /hello with a non-GET method gets status 405 with the
plain-text body "method not allowed" (terminated by the newline
`http.Error` prints) and no JSON greeting; the middleware records it under
status label "405" and every histogram observation of that request carries
status "405". -/
theorem claim_C7_non_get_rejected (m : String) (q : Option String)
    (encodeErr : Bool) (elapsed : ℚ) (h : m ≠ "GET") :
    (serveHello { method := m, nameQuery := q } encodeErr elapsed).rw.status = 405 ∧
    (serveHello { method := m, nameQuery := q } encodeErr elapsed).rw.body
        = "method not allowed\n" ∧
    headerGet (serveHello { method := m, nameQuery := q } encodeErr elapsed).rw "Content-Type"
        = some "text/plain; charset=utf-8" ∧
    (∃ l : Labels,
        (serveHello { method := m, nameQuery := q } encodeErr elapsed).events
            = [MetricEvent.inc l, MetricEvent.obs l elapsed] ∧ l.status = "405") ∧
    (∀ (l : Labels) (d : ℚ),
        MetricEvent.obs l d ∈ (serveHello { method := m, nameQuery := q } encodeErr elapsed).events
          → l.status = "405") := by
  have hops : helloHandler { method := m, nameQuery := q } encodeErr
      = httpError "method not allowed" 405 := by
    simp [helloHandler, h]
  have hstat : (srApplyOps { rw := ResponseWriter.init, status := 200 }
      (helloHandler { method := m, nameQuery := q } encodeErr)).status = 405 := by
    rw [hops]
    rfl
  have hev : (serveHello { method := m, nameQuery := q } encodeErr elapsed).events
      = [MetricEvent.inc { method := m, path := "/hello", status := "405" },
         MetricEvent.obs { method := m, path := "/hello", status := "405" } elapsed] := by
    simp only [serveHello, instrumentHandler]
    rw [hstat]
    rfl
  have hrw : (serveHello { method := m, nameQuery := q } encodeErr elapsed).rw
      = applyOps ResponseWriter.init (helloHandler { method := m, nameQuery := q } encodeErr) := by
    show (srApplyOps { rw := ResponseWriter.init, status := 200 } _).rw = _
    rw [srApplyOps_rw]
  refine ⟨?_, ?_, ?_, ⟨_, hev, rfl⟩, ?_⟩
  · rw [hrw, hops]
    rfl
  · rw [hrw, hops]
    rfl
  · rw [hrw, hops]
    rfl
  · intro l d hmem
    rw [hev] at hmem
    rcases List.mem_cons.mp hmem with hmem | hmem
    · exact absurd hmem (by simp)
    · rcases List.mem_cons.mp hmem with hmem | hmem
      · injection hmem with h1 h2
        subst h1
        rfl
      · exact absurd hmem (List.not_mem_nil _)

/-- Witness for C7 at the concrete method POST. -/
theorem claim_C7_witness :
    (serveHello { method := "POST", nameQuery := none } false 1).rw.status = 405 ∧
    (serveHello { method := "POST", nameQuery := none } false 1).rw.body
        = "method not allowed\n" ∧
    headerGet (serveHello { method := "POST", nameQuery := none } false 1).rw "Content-Type"
        = some "text/plain; charset=utf-8" ∧
    (∃ l : Labels,
        (serveHello { method := "POST", nameQuery := none } false 1).events
            = [MetricEvent.inc l, MetricEvent.obs l 1] ∧ l.status = "405") ∧
    (∀ (l : Labels) (d : ℚ),
        MetricEvent.obs l d ∈ (serveHello { method := "POST", nameQuery := none } false 1).events
          → l.status = "405") :=
  claim_C7_non_get_rejected "POST" none false 1 (by decide)

/-- C8 counterexample: when JSON encoding fails on a `GET /hello` request
(only possible when the underlying write fails), the middleware does
record status "500", but the client-visible committed status is 200 — the
first body write already committed the implicit 200 header, so the
`http.Error(w, ..., 500)` the handler then issues cannot change the wire
status. The claim's assertion that the client receives a 500-equivalent
response is therefore false on the code. -/
theorem claim_C8_counterexample :
    (serveHello { method := "GET", nameQuery := some "x" } true 0).rw.status = 200 ∧
    (serveHello { method := "GET", nameQuery := some "x" } true 0).rw.status ≠ 500 ∧
    (∃ l : Labels,
        (serveHello { method := "GET", nameQuery := some "x" } true 0).events
            = [MetricEvent.inc l, MetricEvent.obs l 0] ∧ l.status = "500") :=
  ⟨by decide, by decide, ⟨_, rfl, by decide⟩⟩

/-- C8 (amended): if JSON encoding of the greeting fails, the handler
issues `http.Error` with 500 and the middleware — reading the captured
status only after the handler returns — records the request under status
label "500"; the client-visible status stays at the already-committed
200, since the body write preceded the 500 status attempt. -/
theorem claim_C8_encode_failure_recorded_500 (q : Option String) (elapsed : ℚ) :
    (∃ l : Labels,
        (serveHello { method := "GET", nameQuery := q } true elapsed).events
            = [MetricEvent.inc l, MetricEvent.obs l elapsed] ∧ l.status = "500") ∧
    (serveHello { method := "GET", nameQuery := q } true elapsed).rw.status = 200 ∧
    (serveHello { method := "GET", nameQuery := q } true elapsed).rw.wroteHeader = true := by
  have hstat : (srApplyOps { rw := ResponseWriter.init, status := 200 }
      (helloHandler { method := "GET", nameQuery := q } true)).status = 500 := by
    rw [srApplyOps_status, helloHandler_GET]
    rfl
  have hev : (serveHello { method := "GET", nameQuery := q } true elapsed).events
      = [MetricEvent.inc { method := "GET", path := "/hello", status := "500" },
         MetricEvent.obs { method := "GET", path := "/hello", status := "500" } elapsed] := by
    simp only [serveHello, instrumentHandler]
    rw [hstat]
    rfl
  have hrw : (serveHello { method := "GET", nameQuery := q } true elapsed).rw
      = applyOps ResponseWriter.init (helloHandler { method := "GET", nameQuery := q } true) := by
    show (srApplyOps { rw := ResponseWriter.init, status := 200 } _).rw = _
    rw [srApplyOps_rw]
  refine ⟨⟨_, hev, rfl⟩, ?_, ?_⟩
  · rw [hrw, helloHandler_GET]
    rfl
  · rw [hrw, helloHandler_GET]
    rfl

/-- C9: the metrics recorder loses no updates under arbitrary
interleaving: after any interleaving of the event traces of N completed
`GET /hello` requests (each `counter.Inc` being atomic in the Prometheus
client, interleavings are permutations of the concatenated per-request
traces), the counter series for labels method "GET", path "/hello",
status "200" equals exactly N. -/
theorem claim_C9_lossless_counter_under_interleaving
    (reqs : List (Option String × ℚ)) (es : List MetricEvent)
    (h : es.Perm ((reqs.map (fun p => helloEvents p.1 p.2)).flatten)) :
    (applyEvents MetricsState.init es).counter helloOKLabels = reqs.length := by
  rw [applyEvents_counter]
  show 0 + countInc helloOKLabels es = reqs.length
  rw [Nat.zero_add]
  unfold countInc
  rw [h.countP_eq, List.countP_flatten, List.map_map]
  exact sum_map_one reqs _ (fun x _hx => countInc_helloEvents x.1 x.2)

/-- Witness for C9: an interleaving of two concurrent `GET /hello`
requests (both increments before both observations) still counts 2. -/
theorem claim_C9_witness :
    (applyEvents MetricsState.init
        [MetricEvent.inc helloOKLabels, MetricEvent.inc helloOKLabels,
         MetricEvent.obs helloOKLabels 1, MetricEvent.obs helloOKLabels 0]).counter helloOKLabels
      = 2 :=
  claim_C9_lossless_counter_under_interleaving [(some "A", 1), (none, 0)] _ (by decide)

/-- C10: after any interleaving of the traces of any finite set of
completed instrumented requests, the counter series value equals the
histogram observation count for every label set: each completed request
contributes one increment and one observation built from the same labels
map. -/
theorem claim_C10_counter_lockstep_histogram
    (runs : List RequestRun) (es : List MetricEvent)
    (h : es.Perm ((runs.map runEvents).flatten)) (l : Labels) :
    (applyEvents MetricsState.init es).counter l
      = (applyEvents MetricsState.init es).histCount l := by
  rw [applyEvents_counter, applyEvents_histCount]
  show 0 + countInc l es = 0 + countObs l es
  rw [Nat.zero_add, Nat.zero_add]
  unfold countInc countObs
  rw [h.countP_eq, h.countP_eq, List.countP_flatten, List.countP_flatten,
    List.map_map, List.map_map]
  congr 1

/-- Witness for C10 over two completed requests with distinct outcomes. -/
theorem claim_C10_witness :
    (applyEvents MetricsState.init
        ((([{ path := "/hello", handler := fun rq => helloHandler rq false,
              req := { method := "GET", nameQuery := none }, elapsed := 0 },
            { path := "/hello", handler := fun rq => helloHandler rq false,
              req := { method := "POST", nameQuery := none }, elapsed := 1 }] :
            List RequestRun).map runEvents).flatten)).counter helloOKLabels
      = (applyEvents MetricsState.init
        ((([{ path := "/hello", handler := fun rq => helloHandler rq false,
              req := { method := "GET", nameQuery := none }, elapsed := 0 },
            { path := "/hello", handler := fun rq => helloHandler rq false,
              req := { method := "POST", nameQuery := none }, elapsed := 1 }] :
            List RequestRun).map runEvents).flatten)).histCount helloOKLabels :=
  claim_C10_counter_lockstep_histogram _ _ (List.Perm.refl _) helloOKLabels
